import Mathlib

/-!
Verification of the `three-3mf-exporter` package
(`packages/three-3mf-exporter/src/index.ts`).

The exporter walks a scene graph (meshes and groups carrying 4x4 affine
transforms), flattens it into a table of mesh/assembly components plus a
build-item list, computes a centering translation over the world-space
bounding box, and emits the documents of a 3MF package in a fixed order.

The embedding below translates the exporter into pure Lean functions:
JavaScript numbers are modelled as rationals, the mutable `components`,
`materials`, `buildItems` arrays become explicit state threaded through the
recursion, and the recursive closures `processMesh`, `processNode`,
`getVerts`, `collect` become (mutually) recursive functions.
-/

set_option maxHeartbeats 1000000

namespace Bekuto3d

/-- A 3D point or vector; JS floats are modelled as rationals. -/
structure Vec3 where
  x : ℚ
  y : ℚ
  z : ℚ
deriving DecidableEq, Repr

/-- An RGB color with channels in [0,1], as in the scene-graph library. -/
structure Color where
  r : ℚ
  g : ℚ
  b : ℚ
deriving DecidableEq, Repr

/-- A 4x4 matrix stored column-major in a flat 16-entry list, exactly like
the `elements` array of the scene-graph library matrices. -/
structure Matrix4 where
  elements : List ℚ
deriving DecidableEq, Repr

/-- Read entry `i` of the flat column-major element array (0 outside). -/
def Matrix4.get (m : Matrix4) (i : Nat) : ℚ := m.elements.getD i 0

/-- The identity matrix in column-major layout. -/
def Matrix4.identity : Matrix4 :=
  ⟨[1, 0, 0, 0, 0, 1, 0, 0, 0, 0, 1, 0, 0, 0, 0, 1]⟩

/-- Matrix product `a * b` in column-major layout: entry at column `col`,
row `row` of the result is the dot product of row `row` of `a` with column
`col` of `b` (this is the `multiplyMatrices(a, b)` of the scene-graph
library, spelled as a uniform sum over `k`). -/
def Matrix4.multiply (a b : Matrix4) : Matrix4 :=
  ⟨(List.range 16).map fun i =>
    let row := i % 4
    let col := i / 4
    (List.range 4).foldl (fun s k => s + a.get (4 * k + row) * b.get (4 * col + k)) 0⟩

/-- Full 4x4 inverse by the adjugate formula, transcribed from the
`Matrix4.invert` of the scene-graph library.  There `det === 0` yields the
zero matrix; here rational division is total with `1 / 0 = 0`, so
`detInv = 0` produces the zero matrix through the very same formula. -/
def Matrix4.invert (m : Matrix4) : Matrix4 :=
  let n11 := m.get 0; let n21 := m.get 1; let n31 := m.get 2; let n41 := m.get 3
  let n12 := m.get 4; let n22 := m.get 5; let n32 := m.get 6; let n42 := m.get 7
  let n13 := m.get 8; let n23 := m.get 9; let n33 := m.get 10; let n43 := m.get 11
  let n14 := m.get 12; let n24 := m.get 13; let n34 := m.get 14; let n44 := m.get 15
  let t11 := n23 * n34 * n42 - n24 * n33 * n42 + n24 * n32 * n43 - n22 * n34 * n43 - n23 * n32 * n44 + n22 * n33 * n44
  let t12 := n14 * n33 * n42 - n13 * n34 * n42 - n14 * n32 * n43 + n12 * n34 * n43 + n13 * n32 * n44 - n12 * n33 * n44
  let t13 := n13 * n24 * n42 - n14 * n23 * n42 + n14 * n22 * n43 - n12 * n24 * n43 - n13 * n22 * n44 + n12 * n23 * n44
  let t14 := n14 * n23 * n32 - n13 * n24 * n32 - n14 * n22 * n33 + n12 * n24 * n33 + n13 * n22 * n34 - n12 * n23 * n34
  let det := n11 * t11 + n21 * t12 + n31 * t13 + n41 * t14
  let detInv := 1 / det
  ⟨[t11 * detInv,
    (n24 * n33 * n41 - n23 * n34 * n41 - n24 * n31 * n43 + n21 * n34 * n43 + n23 * n31 * n44 - n21 * n33 * n44) * detInv,
    (n22 * n34 * n41 - n24 * n32 * n41 + n24 * n31 * n42 - n21 * n34 * n42 - n22 * n31 * n44 + n21 * n32 * n44) * detInv,
    (n23 * n32 * n41 - n22 * n33 * n41 - n23 * n31 * n42 + n21 * n33 * n42 + n22 * n31 * n43 - n21 * n32 * n43) * detInv,
    t12 * detInv,
    (n13 * n34 * n41 - n14 * n33 * n41 + n14 * n31 * n43 - n11 * n34 * n43 - n13 * n31 * n44 + n11 * n33 * n44) * detInv,
    (n14 * n32 * n41 - n12 * n34 * n41 - n14 * n31 * n42 + n11 * n34 * n42 + n12 * n31 * n44 - n11 * n32 * n44) * detInv,
    (n12 * n33 * n41 - n13 * n32 * n41 + n13 * n31 * n42 - n11 * n33 * n42 - n12 * n31 * n43 + n11 * n32 * n43) * detInv,
    t13 * detInv,
    (n14 * n23 * n41 - n13 * n24 * n41 - n14 * n21 * n43 + n11 * n24 * n43 + n13 * n21 * n44 - n11 * n23 * n44) * detInv,
    (n12 * n24 * n41 - n14 * n22 * n41 + n14 * n21 * n42 - n11 * n24 * n42 - n12 * n21 * n44 + n11 * n22 * n44) * detInv,
    (n13 * n22 * n41 - n12 * n23 * n41 - n13 * n21 * n42 + n11 * n23 * n42 + n12 * n21 * n43 - n11 * n22 * n43) * detInv,
    t14 * detInv,
    (n13 * n24 * n31 - n14 * n23 * n31 + n14 * n21 * n33 - n11 * n24 * n33 - n13 * n21 * n34 + n11 * n23 * n34) * detInv,
    (n14 * n22 * n31 - n12 * n24 * n31 - n14 * n21 * n32 + n11 * n24 * n32 + n12 * n21 * n34 - n11 * n22 * n34) * detInv,
    (n12 * n23 * n31 - n13 * n22 * n31 + n13 * n21 * n32 - n11 * n23 * n32 - n12 * n21 * n33 + n11 * n22 * n33) * detInv]⟩

/-- Vector3.applyMatrix4 of the scene-graph library: apply the matrix with
the homogeneous divide.  For the affine matrices of this exporter the
divisor is 1. -/
def applyMatrix4 (m : Matrix4) (v : Vec3) : Vec3 :=
  let w := 1 / (m.get 3 * v.x + m.get 7 * v.y + m.get 11 * v.z + m.get 15)
  ⟨(m.get 0 * v.x + m.get 4 * v.y + m.get 8 * v.z + m.get 12) * w,
   (m.get 1 * v.x + m.get 5 * v.y + m.get 9 * v.z + m.get 13) * w,
   (m.get 2 * v.x + m.get 6 * v.y + m.get 10 * v.z + m.get 14) * w⟩

/-- Node kinds dispatched on by `processNode` (`node.type` strings of the
scene graph): meshes, the three group-like container types, and `other`
standing for every unrecognized `type` string. -/
inductive NodeKind where
  | mesh
  | group
  | object3d
  | scene
  | other
deriving DecidableEq, Repr

/-- Mesh geometry: the position buffer (`positionAttr`) as a list of points
and the optional index buffer (`geometry.index`). -/
structure Geometry where
  positions : List Vec3
  index : Option (List Nat)
deriving DecidableEq, Repr

/-- A scene-graph material as the exporter sees it: whether a truthy
`color` field is present, and the color itself.  The array-material case of
the source (`material[0]`) is already resolved into this view. -/
structure MeshMaterial where
  hasColor : Bool
  color : Color
deriving DecidableEq, Repr

/-- A scene-graph node: kind, name, local transform `matrix`, geometry and
material (meaningful only for mesh nodes) and children (ignored by
`processMesh`, exactly as in the source). -/
inductive SceneNode where
  | mk (kind : NodeKind) (name : String) (matrix : Matrix4)
       (geometry : Geometry) (material : Option MeshMaterial)
       (children : List SceneNode)
deriving Repr

/-- The kind tag of a node. -/
def SceneNode.kind : SceneNode → NodeKind
  | .mk k _ _ _ _ _ => k

/-- The name of a node. -/
def SceneNode.name : SceneNode → String
  | .mk _ n _ _ _ _ => n

/-- The local transform of a node. -/
def SceneNode.matrix : SceneNode → Matrix4
  | .mk _ _ m _ _ _ => m

/-- The geometry of a node. -/
def SceneNode.geometry : SceneNode → Geometry
  | .mk _ _ _ g _ _ => g

/-- The material of a node. -/
def SceneNode.material : SceneNode → Option MeshMaterial
  | .mk _ _ _ _ mt _ => mt

/-- The children list of a node. -/
def SceneNode.children : SceneNode → List SceneNode
  | .mk _ _ _ _ _ cs => cs

/-- MaterialInfo of the source: 1-based id, RGB color, name, extruder. -/
structure MaterialInfo where
  id : Nat
  color : Color
  name : String
  extruder : Nat
deriving DecidableEq, Repr

/-- A triangle as a triple of indices into the vertex list of a mesh
component. -/
structure Triangle where
  v1 : Nat
  v2 : Nat
  v3 : Nat
deriving DecidableEq, Repr

/-- One entry of the subComponents array of an assembly component. -/
structure SubComponent where
  objectId : Nat
  transform : Matrix4
deriving DecidableEq, Repr

/-- Component kinds (the `type` field of ComponentInfo). -/
inductive CompType where
  | mesh
  | assembly
deriving DecidableEq, Repr

/-- ComponentInfo of the source.  The random `uuid` field is metadata never
used for any computation the claims concern and is omitted. -/
structure ComponentInfo where
  id : Nat
  type : CompType
  vertices : List Vec3
  triangles : List Triangle
  material : Option MaterialInfo
  subComponents : List SubComponent
  name : String
deriving DecidableEq, Repr

/-- A top-level build item (`uuid` omitted as above). -/
structure BuildItem where
  objectId : Nat
  transformMatrix : Matrix4
deriving DecidableEq, Repr

/-- The mutable `components` and `materials` arrays of one export call,
threaded as explicit state. -/
structure ExportState where
  components : List ComponentInfo
  materials : List MaterialInfo
deriving DecidableEq, Repr

/-- The default gray `0x808080` assigned when the material has no color. -/
def grayColor : Color := ⟨128 / 255, 128 / 255, 128 / 255⟩

/-- Color actually used for a mesh material: its own color when a truthy
`color` field exists, the default gray otherwise. -/
def meshColor (m : MeshMaterial) : Color :=
  if m.hasColor then m.color else grayColor

/-- Material resolution of `processMesh` (lines 120-136 of the source,
extracted as its own function): find the first existing material whose RGB
equals the candidate channel-wise; otherwise append a new material whose id
and extruder are the current count plus one. -/
def resolveMaterial (meshName : String) (color : Color) (materials : List MaterialInfo) :
    MaterialInfo × List MaterialInfo :=
  match materials.find? fun m =>
      decide (m.color.r = color.r) && decide (m.color.g = color.g) &&
      decide (m.color.b = color.b) with
  | some existing => (existing, materials)
  | none =>
    let newMaterial : MaterialInfo :=
      { id := materials.length + 1
        color := color
        name := if meshName ≠ "" then meshName ++ "_material"
                else "material_" ++ toString materials.length
        extruder := materials.length + 1 }
    (newMaterial, materials ++ [newMaterial])

/-- Vertex de-duplication state: the string-keyed `vertexMap` (keys are the
exact coordinates, which determine the key string) and the vertex list of
the component under construction. -/
structure VertexAcc where
  vmap : List (Vec3 × Nat)
  vertices : List Vec3
deriving DecidableEq, Repr

/-- processVertex of the source, acting on the local-space coordinates read
from the position buffer: look the exact coordinates up in the map; on a
miss record the next index and push the vertex. -/
def processVertex (acc : VertexAcc) (v : Vec3) : Nat × VertexAcc :=
  match acc.vmap.find? fun p => decide (p.1 = v) with
  | some p => (p.2, acc)
  | none =>
    (acc.vertices.length,
     ⟨acc.vmap ++ [(v, acc.vertices.length)], acc.vertices ++ [v]⟩)

/-- Read corner `i` of the position buffer (`fromBufferAttribute`). -/
def cornerVec (g : Geometry) (i : Nat) : Vec3 := g.positions.getD i ⟨0, 0, 0⟩

/-- The corner index triples the triangle loops of `processMesh` iterate
over: from the index buffer if present (`for i += 3` over `indexAttr`),
otherwise consecutive position triples.  The loop runs `ceil(count / 3)`
times since the counter steps by 3 while `i < count`. -/
def triangleCornerIndices (g : Geometry) : List (Nat × Nat × Nat) :=
  match g.index with
  | some idx =>
    (List.range ((idx.length + 2) / 3)).map fun k =>
      (idx.getD (3 * k) 0, idx.getD (3 * k + 1) 0, idx.getD (3 * k + 2) 0)
  | none =>
    (List.range ((g.positions.length + 2) / 3)).map fun k =>
      (3 * k, 3 * k + 1, 3 * k + 2)

/-- One iteration of the triangle loop: resolve the three corners in order
(v1, v2, v3 — the evaluation order of the object literal) and append the
triangle. -/
def triangleStep (g : Geometry) (st : VertexAcc × List Triangle)
    (c : Nat × Nat × Nat) : VertexAcc × List Triangle :=
  let r1 := processVertex st.1 (cornerVec g c.1)
  let r2 := processVertex r1.2 (cornerVec g c.2.1)
  let r3 := processVertex r2.2 (cornerVec g c.2.2)
  (r3.2, st.2 ++ [⟨r1.1, r2.1, r3.1⟩])

/-- The vertex/triangle construction of `processMesh`: fold the triangle
loop over all corner triples starting from the empty map and lists. -/
def processTriangles (g : Geometry) : List Vec3 × List Triangle :=
  let r := (triangleCornerIndices g).foldl (triangleStep g) (⟨[], []⟩, [])
  (r.1.vertices, r.2)

/-- processMesh of the source: resolve the material (only when the mesh has
one), allocate the next component id, build the de-duplicated local-space
geometry and append the mesh component. -/
def processMesh (node : SceneNode) (st : ExportState) : Nat × ExportState :=
  let mats : Option MaterialInfo × List MaterialInfo :=
    match node.material with
    | none => (none, st.materials)
    | some m =>
      let r := resolveMaterial node.name (meshColor m) st.materials
      (some r.1, r.2)
  let componentId := st.components.length + 1
  let vt := processTriangles node.geometry
  let comp : ComponentInfo :=
    { id := componentId
      type := .mesh
      vertices := vt.1
      triangles := vt.2
      material := mats.1
      subComponents := []
      name := if node.name ≠ "" then node.name else "Mesh-" ++ toString componentId }
  (componentId, ⟨st.components ++ [comp], mats.2⟩)

/-- The assembly component appended by `processNode` for a group. -/
def assemblyComp (assemblyId : Nat) (nm : String) (subs : List SubComponent) :
    ComponentInfo :=
  { id := assemblyId
    type := .assembly
    vertices := []
    triangles := []
    material := none
    subComponents := subs
    name := if nm ≠ "" then nm else "Group-" ++ toString assemblyId }

mutual

/-- processNode of the source.  `world` is the matrixWorld of the node
(parent world times local matrix, as established by `updateMatrixWorld`).
A mesh delegates to `processMesh`; the three group-like kinds compose their
children and append an assembly when at least one child produced a
component; every other kind yields nothing.  The `-1` sentinel of the
source becomes `none`. -/
def processNode (world : Matrix4) (st : ExportState) : SceneNode → Option Nat × ExportState
  | SceneNode.mk kind nm mtx geo mmat children =>
    if kind = NodeKind.mesh then
      let r := processMesh (SceneNode.mk kind nm mtx geo mmat children) st
      (some r.1, r.2)
    else if kind = NodeKind.group ∨ kind = NodeKind.object3d ∨ kind = NodeKind.scene then
      let r := processChildren world st children
      if 0 < r.1.length then
        let assemblyId := r.2.components.length + 1
        (some assemblyId,
         ⟨r.2.components ++ [assemblyComp assemblyId nm r.1], r.2.materials⟩)
      else
        (none, r.2)
    else
      (none, st)

/-- The forEach over `node.children`: each child is processed with its own
world matrix (parent world times its local matrix); a child that yields a
component id contributes `(id, relative transform)` where the relative
transform is parent-world-inverse times child-world, exactly the
`premultiply(invert)` of the source. -/
def processChildren (world : Matrix4) (st : ExportState) :
    List SceneNode → List SubComponent × ExportState
  | [] => ([], st)
  | c :: rest =>
    let childWorld := Matrix4.multiply world c.matrix
    let r := processNode childWorld st c
    let rr := processChildren world r.2 rest
    match r.1 with
    | some sid =>
      (⟨sid, Matrix4.multiply (Matrix4.invert world) childWorld⟩ :: rr.1, rr.2)
    | none => (rr.1, rr.2)

end

/-- The recursive `getVerts` closure of `exportTo3MF`: the local-space
vertices a component contributes, with each sub-component of an assembly
recursively gathered and mapped through its relative transform.  The
source recursion is bounded because sub-component ids strictly decrease;
the explicit fuel (instantiated with the component count, an upper bound
on that descent) makes the same recursion structurally terminating. -/
def getVerts : Nat → List ComponentInfo → ComponentInfo → List Vec3
  | 0, _, _ => []
  | fuel + 1, comps, c =>
    if c.type = CompType.assembly then
      c.subComponents.flatMap fun sc =>
        match comps.find? fun x => x.id == sc.objectId with
        | some sub => (getVerts fuel comps sub).map fun v => applyMatrix4 sc.transform v
        | none => []
    else
      c.vertices

/-- Accumulator of the top-level forEach over `rootChildren`: the export
state plus the `buildItems` and `allVerticesWorld` arrays. -/
structure TopAcc where
  state : ExportState
  buildItems : List BuildItem
  allVerticesWorld : List Vec3
deriving DecidableEq, Repr

/-- One iteration of the top-level forEach: process the child; if it
produced a component, look the component up, gather its vertices mapped
through the item matrix (the local matrix of the child) into
`allVerticesWorld`, and push the build item. -/
def composeStep (parentWorld : Matrix4) (acc : TopAcc) (child : SceneNode) : TopAcc :=
  let childWorld := Matrix4.multiply parentWorld child.matrix
  let r := processNode childWorld acc.state child
  match r.1 with
  | none => { acc with state := r.2 }
  | some childId =>
    let itemMatrix := child.matrix
    let newVerts :=
      match r.2.components.find? fun c => c.id == childId with
      | some target =>
        (getVerts r.2.components.length r.2.components target).map fun v =>
          applyMatrix4 itemMatrix v
      | none => []
    { state := r.2
      buildItems := acc.buildItems ++ [⟨childId, itemMatrix⟩]
      allVerticesWorld := acc.allVerticesWorld ++ newVerts }

/-- The traversal phase of `exportTo3MF`: a scene root contributes its
children as top-level items (their parent world being the scene matrix,
the scene having no parent), any other root is the single top-level item
(its parent world being the identity). -/
def composeScene (root : SceneNode) : TopAcc :=
  let parentWorld :=
    if root.kind = NodeKind.scene then root.matrix else Matrix4.identity
  let rootChildren :=
    if root.kind = NodeKind.scene then root.children else [root]
  rootChildren.foldl (composeStep parentWorld) ⟨⟨[], []⟩, [], []⟩

/-- The print configuration (numeric fields as rationals; the free-form
metadata map as an association list in insertion order). -/
structure PrintConfig where
  printer_name : String
  filament : String
  printableWidth : ℚ
  printableDepth : ℚ
  printableHeight : ℚ
  printableArea : List String
  printerSettingsId : String
  printSettingsId : String
  metadata : List (String × String)
deriving DecidableEq, Repr

/-- The default configuration (Bambu Lab A1).  The `compression` field
only selects the codec of the external ZIP library and plays no role in
any claim, so it is not modelled. -/
def defaultPrintConfig : PrintConfig :=
  { printer_name := "Bambu Lab A1"
    filament := "Bambu PLA Basic @BBL A1"
    printableWidth := 256
    printableDepth := 256
    printableHeight := 256
    printableArea := ["0x0", "256x0", "256x256", "0x256"]
    printerSettingsId := "Bambu Lab A1 0.4 nozzle"
    printSettingsId := "0.20mm Standard @BBL A1"
    metadata := [("Application", "BambuStudio-02.04.00.70"),
                 ("ApplicationTitle", "Exported 3D Model")] }

/-- Componentwise min of two points. -/
def vecMin (a b : Vec3) : Vec3 := ⟨min a.x b.x, min a.y b.y, min a.z b.z⟩

/-- Componentwise max of two points. -/
def vecMax (a b : Vec3) : Vec3 := ⟨max a.x b.x, max a.y b.y, max a.z b.z⟩

/-- The bounding-box fold of the centering logic.  The source seeds the
fold with plus/minus infinity and folds over the whole list, which for a
non-empty list is the same as seeding with the first point and folding
over the rest; for the empty list the source explicitly sets both corners
to the origin. -/
def bbox : List Vec3 → Vec3 × Vec3
  | [] => (⟨0, 0, 0⟩, ⟨0, 0, 0⟩)
  | v :: rest => rest.foldl (fun p w => (vecMin p.1 w, vecMax p.2 w)) (v, v)

/-- The centering translation of `exportTo3MF`: bed center minus model
center horizontally, and minus the lowest point vertically. -/
def computeShift (verts : List Vec3) (cfg : PrintConfig) : Vec3 :=
  let mn := (bbox verts).1
  let mx := (bbox verts).2
  let modelCenter : Vec3 := ⟨(mn.x + mx.x) / 2, (mn.y + mx.y) / 2, (mn.z + mx.z) / 2⟩
  let bedCenter : Vec3 := ⟨cfg.printableWidth / 2, cfg.printableDepth / 2, 0⟩
  ⟨bedCenter.x - modelCenter.x, bedCenter.y - modelCenter.y, bedCenter.z - mn.z⟩

/-- Left-pad a digit string with zeros to the given width. -/
def padZeros (width : Nat) (s : String) : String :=
  String.mk (List.replicate (width - s.length) '0') ++ s

/-- toFixed(5) of JS on a non-negative number: the numerator of the fixed
representation is the integer closest to the value times 10^5, ties taken
upward. -/
def toFixed5Nonneg (q : ℚ) : String :=
  let n : Nat := (⌊q * 100000 + 1 / 2⌋).toNat
  toString (n / 100000) ++ "." ++ padZeros 5 (toString (n % 100000))

/-- toFixed(5) of JS: format the absolute value and restore the sign. -/
def toFixed5 (q : ℚ) : String :=
  if q < 0 then "-" ++ toFixed5Nonneg (-q) else toFixed5Nonneg q

/-- Math.round of JS (floor of the value plus one half). -/
def roundJS (q : ℚ) : ℤ := ⌊q + 1 / 2⌋

/-- One color channel scaled to 0..255 and clamped, as in `getHex` of the
scene-graph color class. -/
def channel255 (c : ℚ) : Nat := (roundJS (max 0 (min (c * 255) 255))).toNat

/-- The packed 24-bit value of `getHex`. -/
def getHex (c : Color) : Nat :=
  channel255 c.r * 65536 + channel255 c.g * 256 + channel255 c.b

/-- A lowercase hexadecimal digit. -/
def hexDigit (n : Nat) : Char :=
  if n < 10 then Char.ofNat (48 + n) else Char.ofNat (87 + n)

/-- getHexString of the scene-graph color class: the packed value as six
lowercase hexadecimal digits (the source pads with a zero prefix and takes
the last six characters; the value is below 16^6, so this is the same). -/
def getHexString (c : Color) : String :=
  let h := getHex c
  String.mk [hexDigit (h / 1048576 % 16), hexDigit (h / 65536 % 16),
             hexDigit (h / 4096 % 16), hexDigit (h / 256 % 16),
             hexDigit (h / 16 % 16), hexDigit (h % 16)]

/-- The twelve-number 3MF transform attribute (columns 0, 1, 2 of the
linear part then the translation), with the translation entries passed
explicitly because the build-item emission shifts them. -/
def transformAttr (m : Matrix4) (tx ty tz : ℚ) : String :=
  toFixed5 (m.get 0) ++ " " ++ toFixed5 (m.get 1) ++ " " ++ toFixed5 (m.get 2) ++ " " ++
  toFixed5 (m.get 4) ++ " " ++ toFixed5 (m.get 5) ++ " " ++ toFixed5 (m.get 6) ++ " " ++
  toFixed5 (m.get 8) ++ " " ++ toFixed5 (m.get 9) ++ " " ++ toFixed5 (m.get 10) ++ " " ++
  toFixed5 tx ++ " " ++ toFixed5 ty ++ " " ++ toFixed5 tz

/-- The `component` element of an assembly object: the relative transform
is emitted unshifted, straight from the stored matrix. -/
def subComponentXML (sc : SubComponent) : String :=
  "<component objectid=\"" ++ toString sc.objectId ++ "\" transform=\"" ++
  transformAttr sc.transform (sc.transform.get 12) (sc.transform.get 13)
    (sc.transform.get 14) ++ "\" />"

/-- One vertex element. -/
def vertexXML (v : Vec3) : String :=
  "<vertex x=\"" ++ toFixed5 v.x ++ "\" y=\"" ++ toFixed5 v.y ++ "\" z=\"" ++
  toFixed5 v.z ++ "\" />"

/-- One triangle element. -/
def triangleXML (t : Triangle) : String :=
  "<triangle v1=\"" ++ toString t.v1 ++ "\" v2=\"" ++ toString t.v2 ++
  "\" v3=\"" ++ toString t.v3 ++ "\" />"

/-- One `object` element of the resources section: assemblies list their
sub-components (joined with no separator), meshes their vertex and
triangle lists (joined with single spaces). -/
def objectXML (c : ComponentInfo) : String :=
  if c.type = CompType.assembly then
    "<object id=\"" ++ toString c.id ++ "\" type=\"model\" name=\"" ++ c.name ++
    "\"><components>" ++ String.join (c.subComponents.map subComponentXML) ++
    "</components></object>"
  else
    "<object id=\"" ++ toString c.id ++ "\" type=\"model\" name=\"" ++ c.name ++
    "\"><mesh><vertices>" ++
    String.intercalate " " (c.vertices.map vertexXML) ++
    "</vertices><triangles>" ++
    String.intercalate " " (c.triangles.map triangleXML) ++
    "</triangles></mesh></object>"

/-- The resources section: one object element per component, newline
separated.  The centering shift does not reach this function. -/
def resourcesSection (comps : List ComponentInfo) : String :=
  String.intercalate "\n" (comps.map objectXML)

/-- One `item` element of the build section: the stored item matrix with
the centering shift added to its three translation entries (elements 12,
13 and 14) at emission time. -/
def itemXML (shift : Vec3) (item : BuildItem) : String :=
  let e := item.transformMatrix
  let tx := e.get 12 + shift.x
  let ty := e.get 13 + shift.y
  let tz := e.get 14 + shift.z
  "<item objectid=\"" ++ toString item.objectId ++ "\" transform=\"" ++
  transformAttr e tx ty tz ++ "\" printable=\"1\" />"

/-- The build section: one item element per build item, newline
separated. -/
def buildSection (items : List BuildItem) (shift : Vec3) : String :=
  String.intercalate "\n" (items.map (itemXML shift))

/-- The metadata elements: the creation date (passed in, where the source
reads the clock) followed by the configured metadata pairs. -/
def metadataSection (cfg : PrintConfig) (date : String) : String :=
  String.intercalate "\n    "
    (("<metadata name=\"CreationDate\">" ++ date ++ "</metadata>") ::
      cfg.metadata.map fun p =>
        "<metadata name=\"" ++ p.1 ++ "\">" ++ p.2 ++ "</metadata>")

/-- The fixed skeleton of the main model document around the metadata,
resources and build sections. -/
def mainModelTemplate (metadata resources build : String) : String :=
  "<?xml version=\"1.0\" encoding=\"UTF-8\"?>\n" ++
  "<model unit=\"millimeter\" xml:lang=\"en-US\" xmlns=\"http://schemas.microsoft.com/3dmanufacturing/core/2015/02\" xmlns:slic3rpe=\"http://schemas.slic3r.org/3mf/2017/06\" xmlns:p=\"http://schemas.microsoft.com/3dmanufacturing/production/2015/06\" requiredextensions=\"p\">\n    " ++
  metadata ++ "\n    <resources>\n" ++ resources ++
  "\n    </resources>\n    <build>\n" ++ build ++ "\n    </build>\n</model>"

/-- createMainModelXML of the source. -/
def createMainModelXML (comps : List ComponentInfo) (items : List BuildItem)
    (shift : Vec3) (cfg : PrintConfig) (date : String) : String :=
  mainModelTemplate (metadataSection cfg date) (resourcesSection comps)
    (buildSection items shift)

/-- The `collect` closure of `createModelSettingsXML`: flatten a component
tree to its mesh leaves in depth-first order.  Fuel bounds the descent as
in `getVerts`. -/
def collectParts : Nat → List ComponentInfo → ComponentInfo → List ComponentInfo
  | 0, _, _ => []
  | fuel + 1, comps, c =>
    if c.type = CompType.mesh then [c]
    else
      c.subComponents.flatMap fun sc =>
        match comps.find? fun x => x.id == sc.objectId with
        | some sub => collectParts fuel comps sub
        | none => []

/-- One part element of the model settings document. -/
def partXML (p : ComponentInfo) : String :=
  let extruder := match p.material with
    | some m => m.extruder
    | none => 1
  "    <part id=\"" ++ toString p.id ++ "\" subtype=\"normal_part\">\n" ++
  "      <metadata key=\"name\" value=\"" ++ p.name ++ "\"/>\n" ++
  "      <metadata key=\"extruder\" value=\"" ++ toString extruder ++ "\"/>\n" ++
  "      <mesh_stat edges_fixed=\"0\" degenerate_facets=\"0\" facets_removed=\"0\" facets_reversed=\"0\" backwards_edges=\"0\"/>\n" ++
  "    </part>"

/-- createModelSettingsXML of the source: per build item an object block
listing its mesh leaves, an instance block, and an assemble entry. -/
def createModelSettingsXML (comps : List ComponentInfo) (items : List BuildItem) : String :=
  let blocks := items.enum.map fun p =>
    let index := p.1
    let item := p.2
    let objId := item.objectId
    let compName := match comps.find? fun c => c.id == objId with
      | some c => c.name
      | none => ""
    let parts := match comps.find? fun c => c.id == objId with
      | some c => collectParts comps.length comps c
      | none => []
    let objectsXml :=
      "  <object id=\"" ++ toString objId ++ "\">\n" ++
      "    <metadata key=\"name\" value=\"" ++ compName ++ "\"/>\n" ++
      "    <metadata key=\"extruder\" value=\"1\"/>\n" ++
      "    <metadata key=\"thumbnail_file\" value=\"\"/>\n" ++
      String.intercalate "\n" (parts.map partXML) ++ "\n  </object>\n"
    let instancesXml :=
      "    <model_instance>\n" ++
      "      <metadata key=\"object_id\" value=\"" ++ toString objId ++ "\"/>\n" ++
      "      <metadata key=\"instance_id\" value=\"0\"/>\n" ++
      "      <metadata key=\"identify_id\" value=\"" ++ toString (index + 1) ++ "\"/>\n" ++
      "    </model_instance>\n"
    let assembleXml :=
      "    <assemble_item object_id=\"" ++ toString objId ++
      "\" instance_id=\"0\" offset=\"0 0 0\"/>\n"
    (objectsXml, instancesXml, assembleXml)
  "<?xml version=\"1.0\" encoding=\"UTF-8\"?>\n<config>\n" ++
  String.join (blocks.map fun b => b.1) ++
  "  <plate>\n    <metadata key=\"plater_id\" value=\"1\"/>\n    <metadata key=\"plater_name\" value=\"plate-1\"/>\n" ++
  String.join (blocks.map fun b => b.2.1) ++
  "  </plate>\n  <assemble>\n" ++
  String.join (blocks.map fun b => b.2.2) ++
  "  </assemble>\n</config>"

/-- The filament color list of the project settings: the hex string of
each material in id order, then white entries pushed while fewer than two
colors exist (the while loop of the source, which runs at most twice). -/
def paddedColors (materials : List MaterialInfo) : List String :=
  let colors := materials.map fun m => "#" ++ getHexString m.color
  match colors with
  | [] => ["#FFFFFF", "#FFFFFF"]
  | [c] => [c, "#FFFFFF"]
  | cs => cs

/-- The project settings object built by `createProjectSettingsConfig`
before JSON serialization (fields in source order). -/
structure ProjectSettings where
  printable_area : List String
  printable_height : ℚ
  bed_exclude_area : List String
  filament_colour : List String
  filament_settings_id : List String
  filament_diameter : List String
  filament_is_support : List String
  printer_model : String
  layer_height : String
  wall_loops : String
  sparse_infill_density : String
  printer_settings_id : String
  printer_variant : String
  nozzle_diameter : List String
  enable_support : String
  support_type : String
  print_settings_id : String
deriving DecidableEq, Repr

/-- createProjectSettingsConfig of the source: assemble the settings
object; every per-extruder filament array gets one slot per color. -/
def createProjectSettingsConfig (materials : List MaterialInfo)
    (cfg : PrintConfig) : ProjectSettings :=
  let colors := paddedColors materials
  { printable_area := cfg.printableArea
    printable_height := cfg.printableHeight
    bed_exclude_area := []
    filament_colour := colors
    filament_settings_id := List.replicate colors.length cfg.filament
    filament_diameter := List.replicate colors.length "1.75"
    filament_is_support := List.replicate colors.length "0"
    printer_model := cfg.printer_name
    layer_height := "0.2"
    wall_loops := "2"
    sparse_infill_density := "15%"
    printer_settings_id := cfg.printerSettingsId
    printer_variant := "0.4"
    nozzle_diameter := ["0.4"]
    enable_support := "0"
    support_type := "normal(auto)"
    print_settings_id := cfg.printSettingsId }

/-- Escape of a JSON string body (quote and backslash; the configuration
strings of this exporter contain no control characters). -/
def jsonEscape (s : String) : String :=
  String.mk (s.toList.flatMap fun ch =>
    if ch = '"' then ['\\', '"']
    else if ch = '\\' then ['\\', '\\']
    else [ch])

/-- A JSON string literal. -/
def jsonStr (s : String) : String := "\"" ++ jsonEscape s ++ "\""

/-- A JSON array of string literals. -/
def jsonArr (xs : List String) : String :=
  "[" ++ String.intercalate "," (xs.map jsonStr) ++ "]"

/-- The decimal rendering of a rational used for `toString()` on the
printable height; the shipped configurations use whole numbers, for which
this agrees with the JS rendering. -/
def numToString (q : ℚ) : String :=
  if q.den = 1 then toString q.num else toString q

/-- JSON.stringify of the settings object, field for field in source
order. -/
def renderProjectSettings (s : ProjectSettings) : String :=
  "\x7b\"printable_area\":" ++ jsonArr s.printable_area ++
  ",\"printable_height\":" ++ jsonStr (numToString s.printable_height) ++
  ",\"bed_exclude_area\":" ++ jsonArr s.bed_exclude_area ++
  ",\"filament_colour\":" ++ jsonArr s.filament_colour ++
  ",\"filament_settings_id\":" ++ jsonArr s.filament_settings_id ++
  ",\"filament_diameter\":" ++ jsonArr s.filament_diameter ++
  ",\"filament_is_support\":" ++ jsonArr s.filament_is_support ++
  ",\"printer_model\":" ++ jsonStr s.printer_model ++
  ",\"layer_height\":" ++ jsonStr s.layer_height ++
  ",\"wall_loops\":" ++ jsonStr s.wall_loops ++
  ",\"sparse_infill_density\":" ++ jsonStr s.sparse_infill_density ++
  ",\"printer_settings_id\":" ++ jsonStr s.printer_settings_id ++
  ",\"printer_variant\":" ++ jsonStr s.printer_variant ++
  ",\"nozzle_diameter\":" ++ jsonArr s.nozzle_diameter ++
  ",\"enable_support\":" ++ jsonStr s.enable_support ++
  ",\"support_type\":" ++ jsonStr s.support_type ++
  ",\"print_settings_id\":" ++ jsonStr s.print_settings_id ++ "\x7d"

/-- The fixed relationships document. -/
def relationshipsXML : String :=
  "<?xml version=\"1.0\" encoding=\"UTF-8\"?>\n<Relationships xmlns=\"http://schemas.openxmlformats.org/package/2006/relationships\">\n  <Relationship Id=\"rel-1\" Target=\"/3D/3dmodel.model\" Type=\"http://schemas.microsoft.com/3dmanufacturing/2013/01/3dmodel\"/>\n  <Relationship Id=\"rel-2\" Target=\"/Metadata/model_settings.config\" Type=\"http://schemas.microsoft.com/3dmanufacturing/2013/01/3dmodel\"/>\n  <Relationship Id=\"rel-3\" Target=\"/Metadata/project_settings.config\" Type=\"http://schemas.microsoft.com/3dmanufacturing/2013/01/3dmodel\"/>\n</Relationships>"

/-- The fixed content-types document. -/
def contentTypesXML : String :=
  "<?xml version=\"1.0\" encoding=\"UTF-8\"?>\n<Types xmlns=\"http://schemas.openxmlformats.org/package/2006/content-types\">\n  <Default Extension=\"rels\" ContentType=\"application/vnd.openxmlformats-package.relationships+xml\" />\n  <Default Extension=\"model\" ContentType=\"application/vnd.ms-package.3dmanufacturing-3dmodel+xml\" />\n  <Default Extension=\"config\" ContentType=\"application/vnd.ms-package.3dmanufacturing-3dmodel+xml\" />\n  <Default Extension=\"png\" ContentType=\"image/png\" />\n  <Default Extension=\"gcode\" ContentType=\"text/x.gcode\"/>\n</Types>"

/-- The emission and packaging phase: generate the three documents from
the frozen tables and write the archive entries in the order of the
source, the content-types descriptor deliberately last.  The emitters
only read the tables, so the tables and the build-item list flow out
unchanged alongside the entries. -/
def emitPhase (st : ExportState) (items : List BuildItem) (shift : Vec3)
    (cfg : PrintConfig) (date : String) :
    List (String × String) × ExportState × List BuildItem :=
  ([("_rels/.rels", relationshipsXML),
    ("3D/3dmodel.model", createMainModelXML st.components items shift cfg date),
    ("Metadata/model_settings.config", createModelSettingsXML st.components items),
    ("Metadata/project_settings.config",
      renderProjectSettings (createProjectSettingsConfig st.materials cfg)),
    ("[Content_Types].xml", contentTypesXML)],
   st, items)

/-- exportTo3MF of the source, as the list of archive entries in write
order: traverse, compute the centering shift, emit. -/
def exportTo3MF (root : SceneNode) (cfg : PrintConfig) (date : String) :
    List (String × String) :=
  let acc := composeScene root
  let shift := computeShift acc.allVerticesWorld cfg
  (emitPhase acc.state acc.buildItems shift cfg date).1

/-- Correspondence between one corner index triple of the source geometry
and the stored triangle: each stored index looks up exactly the coordinate
read from the position buffer for that corner. -/
def triMatches (g : Geometry) (vs : List Vec3) (c : Nat × Nat × Nat)
    (t : Triangle) : Prop :=
  vs[t.v1]? = some (cornerVec g c.1) ∧ vs[t.v2]? = some (cornerVec g c.2.1) ∧
  vs[t.v3]? = some (cornerVec g c.2.2)

/-- A point that was read from the position buffer at one of the corners
of the given triple list. -/
def fromCorners (g : Geometry) (corners : List (Nat × Nat × Nat)) (v : Vec3) : Prop :=
  ∃ c ∈ corners, v = cornerVec g c.1 ∨ v = cornerVec g c.2.1 ∨ v = cornerVec g c.2.2

/-- Per-component well-formedness: sub-component references point strictly
below the own id (and at positive ids), and triangle indices are in
bounds. -/
def componentOk (c : ComponentInfo) : Prop :=
  (∀ sc ∈ c.subComponents, 1 ≤ sc.objectId ∧ sc.objectId < c.id) ∧
  (∀ t ∈ c.triangles,
    t.v1 < c.vertices.length ∧ t.v2 < c.vertices.length ∧ t.v3 < c.vertices.length)

/-- Table well-formedness: the ids read 1, 2, ... in list order and every
component is well-formed. -/
def tableOk (cs : List ComponentInfo) : Prop :=
  cs.map ComponentInfo.id = List.range' 1 cs.length ∧ ∀ c ∈ cs, componentOk c

/-- The material pair computed at the top of processMesh. -/
def meshMats (node : SceneNode) (st : ExportState) :
    Option MaterialInfo × List MaterialInfo :=
  match node.material with
  | none => (none, st.materials)
  | some m =>
    let r := resolveMaterial node.name (meshColor m) st.materials
    (some r.1, r.2)

/-- The component record processMesh appends. -/
def meshComp (node : SceneNode) (st : ExportState) : ComponentInfo :=
  { id := st.components.length + 1
    type := .mesh
    vertices := (processTriangles node.geometry).1
    triangles := (processTriangles node.geometry).2
    material := (meshMats node st).1
    subComponents := []
    name := if node.name ≠ "" then node.name
            else "Mesh-" ++ toString (st.components.length + 1) }

/-- Minimum of a list of rationals, 0 on the empty list.  Spec-side
definition for the bounding-box statement of the layout claim: the spec
says the empty bounding box degenerates to the origin. -/
def minQ : List ℚ → ℚ
  | [] => 0
  | a :: l => l.foldl min a

/-- Maximum of a list of rationals, 0 on the empty list (spec-side). -/
def maxQ : List ℚ → ℚ
  | [] => 0
  | a :: l => l.foldl max a

/-- The centering translation as the spec words it: bed center minus
bounding-box center on x and y, minus the bounding-box low corner on z,
with the per-axis extrema taken independently (spec-side definition, to be
compared with `computeShift`). -/
def specShift (verts : List Vec3) (cfg : PrintConfig) : Vec3 :=
  ⟨cfg.printableWidth / 2 - (minQ (verts.map Vec3.x) + maxQ (verts.map Vec3.x)) / 2,
   cfg.printableDepth / 2 - (minQ (verts.map Vec3.y) + maxQ (verts.map Vec3.y)) / 2,
   -minQ (verts.map Vec3.z)⟩

/-- A triangle of three distinct points used as demonstration geometry. -/
def demoGeometry : Geometry := ⟨[⟨0, 0, 0⟩, ⟨1, 0, 0⟩, ⟨0, 1, 0⟩], none⟩

/-- Demonstration geometry with a repeated coordinate. -/
def demoGeometryDup : Geometry := ⟨[⟨0, 0, 0⟩, ⟨1, 1, 1⟩, ⟨0, 0, 0⟩], none⟩

/-- A red demonstration mesh node. -/
def demoMesh1 : SceneNode :=
  .mk .mesh "m1" Matrix4.identity demoGeometry (some ⟨true, ⟨1, 0, 0⟩⟩) []

/-- A green demonstration mesh node. -/
def demoMesh2 : SceneNode :=
  .mk .mesh "m2" Matrix4.identity demoGeometry (some ⟨true, ⟨0, 1, 0⟩⟩) []

/-- A demonstration group holding the two meshes. -/
def demoGroup : SceneNode :=
  .mk .group "g" Matrix4.identity ⟨[], none⟩ none [demoMesh1, demoMesh2]

/-- A node of an unrecognized type. -/
def demoOther : SceneNode :=
  .mk .other "o" Matrix4.identity ⟨[], none⟩ none []

/-- A group with no children. -/
def demoEmptyGroup : SceneNode :=
  .mk .group "e" Matrix4.identity ⟨[], none⟩ none []

/-- A demonstration material list with one red entry. -/
def demoMaterials : List MaterialInfo := [⟨1, ⟨1, 0, 0⟩, "m1_material", 1⟩]

/-- A demonstration material list with two entries. -/
def demoMaterials2 : List MaterialInfo :=
  [⟨1, ⟨1, 0, 0⟩, "m1_material", 1⟩, ⟨2, ⟨0, 1, 0⟩, "m2_material", 2⟩]

instance : Inhabited ComponentInfo :=
  ⟨{ id := 0, type := .mesh, vertices := [], triangles := [], material := none,
     subComponents := [], name := "" }⟩

/-! ## Invariants of the vertex de-duplication -/

/-- Invariant of the de-duplication state: every map entry points at the
vertex it records, every stored vertex has a map entry, and the stored
vertices are pairwise distinct. -/
def vaccInv (acc : VertexAcc) : Prop :=
  (∀ p ∈ acc.vmap, acc.vertices[p.2]? = some p.1) ∧
  (∀ v ∈ acc.vertices, ∃ i, (v, i) ∈ acc.vmap) ∧
  acc.vertices.Nodup

theorem vaccInv_empty : vaccInv ⟨[], []⟩ := by
  refine ⟨?_, ?_, List.nodup_nil⟩ <;> intro p hp <;> simp at hp

theorem processVertex_spec (acc : VertexAcc) (v : Vec3) (h : vaccInv acc) :
    vaccInv (processVertex acc v).2 ∧
    ((processVertex acc v).2.vertices = acc.vertices ∨
      (processVertex acc v).2.vertices = acc.vertices ++ [v]) ∧
    (processVertex acc v).2.vertices[(processVertex acc v).1]? = some v := by
  obtain ⟨hmap, hkeys, hnodup⟩ := h
  unfold processVertex
  cases hfind : acc.vmap.find? fun p => decide (p.1 = v) with
  | some p =>
    have hp : p ∈ acc.vmap := List.mem_of_find?_eq_some hfind
    have hpv : p.1 = v := by
      have := List.find?_some hfind
      simpa using this
    refine ⟨⟨hmap, hkeys, hnodup⟩, Or.inl rfl, ?_⟩
    simpa [hpv] using hmap p hp
  | none =>
    have hnotmem : v ∉ acc.vertices := by
      intro hv
      obtain ⟨i, hi⟩ := hkeys v hv
      have := List.find?_eq_none.mp hfind (v, i) hi
      simp at this
    refine ⟨⟨?_, ?_, ?_⟩, Or.inr rfl, ?_⟩
    · intro p hp
      rcases List.mem_append.mp hp with hold | hnew
      · have hlt : p.2 < acc.vertices.length := by
          have := hmap p hold
          exact (List.getElem?_eq_some.mp this).1
        rw [List.getElem?_append_left hlt]
        exact hmap p hold
      · have hpv : p = (v, acc.vertices.length) := by simpa using hnew
        subst hpv
        exact List.getElem?_concat_length acc.vertices v
    · intro w hw
      rcases List.mem_append.mp hw with hold | hnew
      · obtain ⟨i, hi⟩ := hkeys w hold
        exact ⟨i, List.mem_append.mpr (Or.inl hi)⟩
      · have hwv : w = v := by simpa using hnew
        subst hwv
        exact ⟨acc.vertices.length, List.mem_append.mpr (Or.inr (by simp))⟩
    · exact List.nodup_append.mpr
        ⟨hnodup, List.nodup_singleton v, by
          intro a ha hb
          have : a = v := by simpa using hb
          exact hnotmem (this ▸ ha)⟩
    · exact List.getElem?_concat_length acc.vertices v

theorem triMatches_extend {g vs ds c t} (h : triMatches g vs c t) :
    triMatches g (vs ++ ds) c t := by
  obtain ⟨h1, h2, h3⟩ := h
  exact ⟨by rw [List.getElem?_append_left (List.getElem?_eq_some.mp h1).1]; exact h1,
         by rw [List.getElem?_append_left (List.getElem?_eq_some.mp h2).1]; exact h2,
         by rw [List.getElem?_append_left (List.getElem?_eq_some.mp h3).1]; exact h3⟩

theorem fromCorners_mono {g corners corners' v} (hsub : ∀ c ∈ corners, c ∈ corners')
    (h : fromCorners g corners v) : fromCorners g corners' v := by
  obtain ⟨c, hc, hv⟩ := h
  exact ⟨c, hsub c hc, hv⟩

theorem triangleFold_spec (g : Geometry) :
    ∀ (corners : List (Nat × Nat × Nat)) (acc : VertexAcc) (ts : List Triangle)
      (processed : List (Nat × Nat × Nat)),
      vaccInv acc →
      List.Forall₂ (triMatches g acc.vertices) processed ts →
      (∀ v ∈ acc.vertices, fromCorners g processed v) →
      vaccInv (corners.foldl (triangleStep g) (acc, ts)).1 ∧
      List.Forall₂ (triMatches g (corners.foldl (triangleStep g) (acc, ts)).1.vertices)
        (processed ++ corners) (corners.foldl (triangleStep g) (acc, ts)).2 ∧
      (∀ v ∈ (corners.foldl (triangleStep g) (acc, ts)).1.vertices,
        fromCorners g (processed ++ corners) v) := by
  intro corners
  induction corners with
  | nil =>
    intro acc ts processed hinv hall hfrom
    simpa using ⟨hinv, hall, hfrom⟩
  | cons c rest ih =>
    intro acc ts processed hinv hall hfrom
    have hstep : ∀ x, List.foldl (triangleStep g) (acc, ts) (c :: x) =
        List.foldl (triangleStep g) (triangleStep g (acc, ts) c) x := by
      intro x; rfl
    rw [hstep]
    -- unfold one triangleStep
    have h1 := processVertex_spec acc (cornerVec g c.1) hinv
    set r1 := processVertex acc (cornerVec g c.1) with hr1
    have h2 := processVertex_spec r1.2 (cornerVec g c.2.1) h1.1
    set r2 := processVertex r1.2 (cornerVec g c.2.1) with hr2
    have h3 := processVertex_spec r2.2 (cornerVec g c.2.2) h2.1
    set r3 := processVertex r2.2 (cornerVec g c.2.2) with hr3
    have hext1 : ∃ ds, r1.2.vertices = acc.vertices ++ ds := by
      rcases h1.2.1 with h | h
      · exact ⟨[], by simpa using h⟩
      · exact ⟨[cornerVec g c.1], h⟩
    have hext2 : ∃ ds, r2.2.vertices = r1.2.vertices ++ ds := by
      rcases h2.2.1 with h | h
      · exact ⟨[], by simpa using h⟩
      · exact ⟨[cornerVec g c.2.1], h⟩
    have hext3 : ∃ ds, r3.2.vertices = r2.2.vertices ++ ds := by
      rcases h3.2.1 with h | h
      · exact ⟨[], by simpa using h⟩
      · exact ⟨[cornerVec g c.2.2], h⟩
    obtain ⟨d1, hd1⟩ := hext1
    obtain ⟨d2, hd2⟩ := hext2
    obtain ⟨d3, hd3⟩ := hext3
    have hstepdef : triangleStep g (acc, ts) c = (r3.2, ts ++ [⟨r1.1, r2.1, r3.1⟩]) := by
      simp only [triangleStep, ← hr1, ← hr2, ← hr3]
    rw [hstepdef]
    -- the three lookups hold in the final vertex list of this step
    have hl1 : r3.2.vertices[r1.1]? = some (cornerVec g c.1) := by
      have hx : r3.2.vertices = r1.2.vertices ++ (d2 ++ d3) := by
        rw [hd3, hd2, List.append_assoc]
      rw [hx, List.getElem?_append_left (List.getElem?_eq_some.mp h1.2.2).1]
      exact h1.2.2
    have hl2 : r3.2.vertices[r2.1]? = some (cornerVec g c.2.1) := by
      rw [hd3, List.getElem?_append_left (List.getElem?_eq_some.mp h2.2.2).1]
      exact h2.2.2
    have hl3 : r3.2.vertices[r3.1]? = some (cornerVec g c.2.2) := h3.2.2
    -- transported Forall₂ for the processed prefix
    have hall' : List.Forall₂ (triMatches g r3.2.vertices) (processed ++ [c])
        (ts ++ [⟨r1.1, r2.1, r3.1⟩]) := by
      have hprev : List.Forall₂ (triMatches g r3.2.vertices) processed ts := by
        have hv : r3.2.vertices = acc.vertices ++ (d1 ++ d2 ++ d3) := by
          rw [hd3, hd2, hd1]; simp [List.append_assoc]
        rw [hv]
        exact List.Forall₂.imp (fun a b hab => triMatches_extend hab) hall
      exact List.rel_append hprev
        (List.forall₂_cons.mpr ⟨⟨hl1, hl2, hl3⟩, List.Forall₂.nil⟩)
    -- every vertex still comes from a corner
    have hfrom' : ∀ v ∈ r3.2.vertices, fromCorners g (processed ++ [c]) v := by
      intro v hv
      have hv3 : v ∈ r2.2.vertices ++ d3 := by rwa [← hd3]
      have hcsub : ∀ x ∈ processed, x ∈ processed ++ [c] := by
        intro x hx; exact List.mem_append.mpr (Or.inl hx)
      have hcmem : c ∈ processed ++ [c] := List.mem_append.mpr (Or.inr (by simp))
      rcases List.mem_append.mp hv3 with hv2 | hd
      · have hv2' : v ∈ r1.2.vertices ++ d2 := by rwa [← hd2]
        rcases List.mem_append.mp hv2' with hv1 | hd
        · have hv1' : v ∈ acc.vertices ++ d1 := by rwa [← hd1]
          rcases List.mem_append.mp hv1' with hv0 | hd
          · exact fromCorners_mono hcsub (hfrom v hv0)
          · have : v = cornerVec g c.1 := by
              rcases h1.2.1 with h | h
              · rw [h] at hd1
                have : d1 = [] := List.self_eq_append_right.mp hd1
                rw [this] at hd; simp at hd
              · rw [h] at hd1
                have hde : d1 = [cornerVec g c.1] := List.append_cancel_left hd1.symm
                rw [hde] at hd; simpa using hd
            exact ⟨c, hcmem, Or.inl this⟩
        · have : v = cornerVec g c.2.1 := by
            rcases h2.2.1 with h | h
            · rw [h] at hd2
              have : d2 = [] := List.self_eq_append_right.mp hd2
              rw [this] at hd; simp at hd
            · rw [h] at hd2
              have hde : d2 = [cornerVec g c.2.1] := List.append_cancel_left hd2.symm
              rw [hde] at hd; simpa using hd
          exact ⟨c, hcmem, Or.inr (Or.inl this)⟩
      · have : v = cornerVec g c.2.2 := by
          rcases h3.2.1 with h | h
          · rw [h] at hd3
            have : d3 = [] := List.self_eq_append_right.mp hd3
            rw [this] at hd; simp at hd
          · rw [h] at hd3
            have hde : d3 = [cornerVec g c.2.2] := List.append_cancel_left hd3.symm
            rw [hde] at hd; simpa using hd
        exact ⟨c, hcmem, Or.inr (Or.inr this)⟩
    have := ih r3.2 (ts ++ [⟨r1.1, r2.1, r3.1⟩]) (processed ++ [c]) h3.1 hall' hfrom'
    simpa [List.append_assoc] using this

/-- Summary of the vertex/triangle construction for one mesh: the stored
vertices are pairwise distinct, every triangle corresponds corner by
corner to its index triple, and every stored vertex is a raw (untouched)
position-buffer read. -/
theorem processTriangles_spec (g : Geometry) :
    (processTriangles g).1.Nodup ∧
    List.Forall₂ (triMatches g (processTriangles g).1) (triangleCornerIndices g)
      (processTriangles g).2 ∧
    (∀ v ∈ (processTriangles g).1, fromCorners g (triangleCornerIndices g) v) := by
  have h := triangleFold_spec g (triangleCornerIndices g) ⟨[], []⟩ [] []
    vaccInv_empty List.Forall₂.nil (by intro v hv; simp at hv)
  simp only [List.nil_append] at h
  exact ⟨h.1.2.2, h.2.1, h.2.2⟩

theorem forallTwo_mem_right {α β : Type} {R : α → β → Prop} :
    ∀ {as : List α} {bs : List β}, List.Forall₂ R as bs → ∀ b ∈ bs, ∃ a ∈ as, R a b := by
  intro as bs h
  induction h with
  | nil => intro b hb; simp at hb
  | cons hab htl ih =>
    intro b hb
    rcases List.mem_cons.mp hb with hb | hb
    · exact ⟨_, List.mem_cons_self .., hb ▸ hab⟩
    · obtain ⟨a, ha, hr⟩ := ih b hb
      exact ⟨a, List.mem_cons_of_mem _ ha, hr⟩

/-- Triangle-index validity for one mesh, extracted from the
correspondence: each stored index is a valid position in the vertex
list. -/
theorem processTriangles_valid (g : Geometry) :
    ∀ t ∈ (processTriangles g).2,
      t.v1 < (processTriangles g).1.length ∧ t.v2 < (processTriangles g).1.length ∧
      t.v3 < (processTriangles g).1.length := by
  intro t ht
  obtain ⟨c, _, h1, h2, h3⟩ :=
    forallTwo_mem_right (processTriangles_spec g).2.1 t ht
  exact ⟨(List.getElem?_eq_some.mp h1).1, (List.getElem?_eq_some.mp h2).1,
         (List.getElem?_eq_some.mp h3).1⟩

/-! ## Invariants of the component table -/

theorem tableOk_nil : tableOk [] := by
  constructor
  · rfl
  · intro c hc; simp at hc

theorem tableOk_append {cs : List ComponentInfo} {c : ComponentInfo}
    (h : tableOk cs) (hid : c.id = cs.length + 1) (hok : componentOk c) :
    tableOk (cs ++ [c]) := by
  constructor
  · rw [List.map_append, List.length_append, h.1]
    simp only [List.map_cons, List.map_nil, List.length_cons, List.length_nil]
    rw [List.range'_concat 1 cs.length]
    simp [hid, Nat.add_comm]
  · intro c' hc'
    rcases List.mem_append.mp hc' with h1 | h2
    · exact h.2 c' h1
    · have : c' = c := by simpa using h2
      exact this ▸ hok

/-- processMesh appends exactly the record above and returns its id. -/
theorem processMesh_eq (node : SceneNode) (st : ExportState) :
    processMesh node st =
      (st.components.length + 1,
        ⟨st.components ++ [meshComp node st], (meshMats node st).2⟩) := rfl

/-- The mesh component built by processMesh is well-formed. -/
theorem meshComp_componentOk (node : SceneNode) (st : ExportState) :
    componentOk (meshComp node st) := by
  constructor
  · intro sc hsc; simp [meshComp] at hsc
  · intro t htc
    simp only [meshComp] at htc ⊢
    exact processTriangles_valid node.geometry t htc

mutual

/-- Postcondition of processNode: table well-formedness is preserved, the
table only grows at the end, and a returned id is positive and within the
new table. -/
theorem processNode_post (world : Matrix4) (st : ExportState) (n : SceneNode)
    (h : tableOk st.components) :
    tableOk (processNode world st n).2.components ∧
    (∃ ds, (processNode world st n).2.components = st.components ++ ds) ∧
    (∀ i, (processNode world st n).1 = some i →
      1 ≤ i ∧ i ≤ (processNode world st n).2.components.length) := by
  cases n with
  | mk kind nm mtx geo mmat children =>
    by_cases hk : kind = NodeKind.mesh
    · have hok : componentOk (meshComp (SceneNode.mk kind nm mtx geo mmat children) st) :=
        meshComp_componentOk (SceneNode.mk kind nm mtx geo mmat children) st
      simp only [processNode, hk, if_true, processMesh_eq]
      refine ⟨tableOk_append h rfl hok, ⟨[meshComp (SceneNode.mk kind nm mtx geo mmat children) st], rfl⟩, ?_⟩
      intro i hi
      simp only [Option.some.injEq] at hi
      subst hi
      simp [Nat.le_refl]
    · by_cases hg : kind = NodeKind.group ∨ kind = NodeKind.object3d ∨
          kind = NodeKind.scene
      · have hrec := processChildren_post world st children h
        simp only [processNode, hk, if_false, hg, if_true]
        set r := processChildren world st children with hr
        obtain ⟨hok, ⟨ds, hds⟩, hsubs⟩ := hrec
        by_cases hlen : 0 < r.1.length
        · simp only [hlen, if_true]
          have hasm : componentOk
              (assemblyComp (r.2.components.length + 1) nm r.1) := by
            constructor
            · intro sc hsc
              have := hsubs sc hsc
              exact ⟨this.1, Nat.lt_succ_of_le this.2⟩
            · intro t htc; simp [assemblyComp] at htc
          refine ⟨tableOk_append hok rfl hasm, ⟨ds ++ [_], by rw [hds, List.append_assoc]⟩, ?_⟩
          intro i hi
          simp only [Option.some.injEq] at hi
          subst hi
          simp [Nat.le_refl]
        · simp only [hlen, if_false]
          exact ⟨hok, ⟨ds, hds⟩, by intro i hi; simp at hi⟩
      · simp only [processNode, hk, if_false, hg]
        exact ⟨h, ⟨[], by simp⟩, by intro i hi; simp at hi⟩

/-- Postcondition of processChildren: as for processNode, and every
produced sub-component reference is positive and within the table as it
stands when the loop finishes. -/
theorem processChildren_post (world : Matrix4) (st : ExportState)
    (cs : List SceneNode) (h : tableOk st.components) :
    tableOk (processChildren world st cs).2.components ∧
    (∃ ds, (processChildren world st cs).2.components = st.components ++ ds) ∧
    (∀ sc ∈ (processChildren world st cs).1,
      1 ≤ sc.objectId ∧
        sc.objectId ≤ (processChildren world st cs).2.components.length) := by
  cases cs with
  | nil =>
    simp only [processChildren]
    exact ⟨h, ⟨[], by simp⟩, by intro sc hsc; simp at hsc⟩
  | cons c rest =>
    have hhead := processNode_post (Matrix4.multiply world c.matrix) st c h
    obtain ⟨hok1, ⟨ds1, hds1⟩, hid1⟩ := hhead
    have htail := processChildren_post world
      (processNode (Matrix4.multiply world c.matrix) st c).2 rest hok1
    obtain ⟨hok2, ⟨ds2, hds2⟩, hid2⟩ := htail
    simp only [processChildren]
    set r := processNode (Matrix4.multiply world c.matrix) st c with hr
    set rr := processChildren world r.2 rest with hrr
    have hgrow : r.2.components.length ≤ rr.2.components.length := by
      rw [hds2]; simp
    cases hfst : r.1 with
    | none =>
      simp only []
      refine ⟨hok2, ⟨ds1 ++ ds2, by rw [hds2, hds1, List.append_assoc]⟩, ?_⟩
      intro sc hsc
      exact hid2 sc hsc
    | some sid =>
      simp only []
      refine ⟨hok2, ⟨ds1 ++ ds2, by rw [hds2, hds1, List.append_assoc]⟩, ?_⟩
      intro sc hsc
      rcases List.mem_cons.mp hsc with hhd | htl
      · subst hhd
        have := hid1 sid hfst
        exact ⟨this.1, Nat.le_trans this.2 hgrow⟩
      · exact hid2 sc htl

end

mutual

/-- A node whose composition yields nothing leaves the state untouched. -/
theorem processNode_none (world : Matrix4) (st : ExportState) (n : SceneNode) :
    (processNode world st n).1 = none → (processNode world st n).2 = st := by
  cases n with
  | mk kind nm mtx geo mmat children =>
    by_cases hk : kind = NodeKind.mesh
    · simp [processNode, hk, processMesh_eq]
    · by_cases hg : kind = NodeKind.group ∨ kind = NodeKind.object3d ∨
          kind = NodeKind.scene
      · simp only [processNode, hk, if_false, hg, if_true]
        set r := processChildren world st children with hr
        by_cases hlen : 0 < r.1.length
        · simp [hlen]
        · simp only [hlen, if_false]
          intro _
          have hnil : r.1 = [] := List.length_eq_zero.mp (Nat.eq_zero_of_not_pos hlen)
          exact processChildren_nil world st children hnil
      · simp [processNode, hk, hg]

/-- A children loop that produced no sub-components leaves the state
untouched. -/
theorem processChildren_nil (world : Matrix4) (st : ExportState)
    (cs : List SceneNode) :
    (processChildren world st cs).1 = [] → (processChildren world st cs).2 = st := by
  cases cs with
  | nil => intro _; simp [processChildren]
  | cons c rest =>
    simp only [processChildren]
    set r := processNode (Matrix4.multiply world c.matrix) st c with hr
    set rr := processChildren world r.2 rest with hrr
    cases hfst : r.1 with
    | some sid => simp
    | none =>
      simp only []
      intro hnil
      have h2 : rr.2 = r.2 := processChildren_nil world r.2 rest hnil
      have h1 : r.2 = st := processNode_none (Matrix4.multiply world c.matrix) st c hfst
      rw [h2, h1]

end

/-- The top-level forEach preserves table well-formedness. -/
theorem composeStep_tableOk (pw : Matrix4) (acc : TopAcc) (child : SceneNode)
    (h : tableOk acc.state.components) :
    tableOk (composeStep pw acc child).state.components := by
  have hpost := processNode_post (Matrix4.multiply pw child.matrix) acc.state child h
  unfold composeStep
  cases hfst : (processNode (Matrix4.multiply pw child.matrix) acc.state child).1 with
  | none => simp only [hfst]; exact hpost.1
  | some cid => simp only [hfst]; exact hpost.1

theorem composeFold_tableOk (pw : Matrix4) :
    ∀ (children : List SceneNode) (acc : TopAcc), tableOk acc.state.components →
      tableOk ((children.foldl (composeStep pw) acc).state.components) := by
  intro children
  induction children with
  | nil => intro acc h; simpa using h
  | cons c rest ih =>
    intro acc h
    have : List.foldl (composeStep pw) acc (c :: rest) =
        List.foldl (composeStep pw) (composeStep pw acc c) rest := rfl
    rw [this]
    exact ih (composeStep pw acc c) (composeStep_tableOk pw acc c h)

/-- The component table of every export is well-formed. -/
theorem composeScene_tableOk (root : SceneNode) :
    tableOk (composeScene root).state.components := by
  unfold composeScene
  by_cases hs : root.kind = NodeKind.scene
  · simp only [hs, if_true]
    exact composeFold_tableOk root.matrix root.children ⟨⟨[], []⟩, [], []⟩ tableOk_nil
  · simp only [hs, if_false]
    exact composeFold_tableOk Matrix4.identity [root] ⟨⟨[], []⟩, [], []⟩ tableOk_nil

/-- The simultaneous pairwise fold of the centering logic computes the
per-axis extrema. -/
theorem bboxFold_eq (rest : List Vec3) :
    ∀ p : Vec3 × Vec3,
      rest.foldl (fun p w => (vecMin p.1 w, vecMax p.2 w)) p =
        (⟨(rest.map Vec3.x).foldl min p.1.x, (rest.map Vec3.y).foldl min p.1.y,
          (rest.map Vec3.z).foldl min p.1.z⟩,
         ⟨(rest.map Vec3.x).foldl max p.2.x, (rest.map Vec3.y).foldl max p.2.y,
          (rest.map Vec3.z).foldl max p.2.z⟩) := by
  induction rest with
  | nil => intro p; simp
  | cons w rest ih =>
    intro p
    have hstep : List.foldl (fun p w => (vecMin p.1 w, vecMax p.2 w)) p (w :: rest) =
        List.foldl (fun p w => (vecMin p.1 w, vecMax p.2 w)) (vecMin p.1 w, vecMax p.2 w) rest := rfl
    rw [hstep, ih]
    simp [vecMin, vecMax]

/-- The code translation agrees with the spec formula on every vertex
list. -/
theorem computeShift_eq_specShift (verts : List Vec3) (cfg : PrintConfig) :
    computeShift verts cfg = specShift verts cfg := by
  cases verts with
  | nil =>
    simp [computeShift, bbox, specShift, minQ, maxQ]
  | cons v rest =>
    simp only [computeShift, bbox, specShift, bboxFold_eq rest (v, v), List.map_cons,
      minQ, maxQ, zero_sub]

/-! ## The claims -/

/-- C1: for every export, the component ids form the contiguous 1-based
sequence 1..N in discovery order (the list order of the table), and every
subComponents entry of an assembly references only strictly smaller
(positive) ids. -/
theorem claim_c1 (root : SceneNode) :
    (composeScene root).state.components.map ComponentInfo.id =
      List.range' 1 (composeScene root).state.components.length ∧
    ∀ c ∈ (composeScene root).state.components, ∀ sc ∈ c.subComponents,
      1 ≤ sc.objectId ∧ sc.objectId < c.id := by
  have h := composeScene_tableOk root
  exact ⟨h.1, fun c hc sc hsc => (h.2 c hc).1 sc hsc⟩

/-- Witness for C1 at the two-mesh demonstration group: the first
sub-component reference of the assembly (table position 2) is positive and
below the assembly id. -/
theorem claim_c1_witness :
    1 ≤ (((composeScene demoGroup).state.components.get ⟨2, by decide⟩).subComponents.get
        ⟨0, by decide⟩).objectId ∧
    (((composeScene demoGroup).state.components.get ⟨2, by decide⟩).subComponents.get
        ⟨0, by decide⟩).objectId <
      ((composeScene demoGroup).state.components.get ⟨2, by decide⟩).id :=
  (claim_c1 demoGroup).2 _ (List.get_mem _ _ _) _ (List.get_mem _ _ _)

/-- C10: in every export, each triangle of each component indexes strictly
inside that component's vertex list. -/
theorem claim_c10 (root : SceneNode) :
    ∀ c ∈ (composeScene root).state.components, ∀ t ∈ c.triangles,
      t.v1 < c.vertices.length ∧ t.v2 < c.vertices.length ∧
        t.v3 < c.vertices.length := by
  have h := composeScene_tableOk root
  exact fun c hc t ht => (h.2 c hc).2 t ht

/-- Witness for C10 at the demonstration group: the first triangle of the
first component indexes inside its three stored vertices. -/
theorem claim_c10_witness :
    (((composeScene demoGroup).state.components.get ⟨0, by decide⟩).triangles.get
        ⟨0, by decide⟩).v1 <
      ((composeScene demoGroup).state.components.get ⟨0, by decide⟩).vertices.length ∧
    (((composeScene demoGroup).state.components.get ⟨0, by decide⟩).triangles.get
        ⟨0, by decide⟩).v2 <
      ((composeScene demoGroup).state.components.get ⟨0, by decide⟩).vertices.length ∧
    (((composeScene demoGroup).state.components.get ⟨0, by decide⟩).triangles.get
        ⟨0, by decide⟩).v3 <
      ((composeScene demoGroup).state.components.get ⟨0, by decide⟩).vertices.length :=
  claim_c10 demoGroup _ (List.get_mem _ _ _) _ (List.get_mem _ _ _)

/-- C5: the centering translation of every export equals
(bedCenterX - bboxCenterX, bedCenterY - bboxCenterY, -bboxMinZ) over the
accumulated world-space vertices of all build items, and on an empty scene
it degenerates to (printableWidth / 2, printableDepth / 2, 0). -/
theorem claim_c5 (root : SceneNode) (cfg : PrintConfig) :
    computeShift (composeScene root).allVerticesWorld cfg =
      specShift (composeScene root).allVerticesWorld cfg ∧
    ((composeScene root).allVerticesWorld = [] →
      computeShift (composeScene root).allVerticesWorld cfg =
        ⟨cfg.printableWidth / 2, cfg.printableDepth / 2, 0⟩) := by
  refine ⟨computeShift_eq_specShift _ cfg, fun hempty => ?_⟩
  rw [hempty, computeShift_eq_specShift [] cfg]
  simp [specShift, minQ, maxQ]

/-- Witness for C5: an export of a single unrecognized node gathers no
vertices and is shifted to the bed center of the default bed. -/
theorem claim_c5_witness :
    computeShift (composeScene demoOther).allVerticesWorld defaultPrintConfig =
      ⟨128, 128, 0⟩ := by
  have h := (claim_c5 demoOther defaultPrintConfig).2 (by decide)
  rw [h]
  norm_num [defaultPrintConfig]

/-- C4: resolving a color against the material list returns a channel-wise
equal existing material (list untouched) when one exists, otherwise
appends and returns a fresh material with extruder = current count + 1;
in all cases the list either stays or grows by exactly the returned
entry. -/
theorem claim_c4 (meshName : String) (color : Color) (mats : List MaterialInfo) :
    ((∃ m ∈ mats, m.color.r = color.r ∧ m.color.g = color.g ∧ m.color.b = color.b) →
      (resolveMaterial meshName color mats).2 = mats ∧
      (resolveMaterial meshName color mats).1 ∈ mats ∧
      (resolveMaterial meshName color mats).1.color.r = color.r ∧
      (resolveMaterial meshName color mats).1.color.g = color.g ∧
      (resolveMaterial meshName color mats).1.color.b = color.b) ∧
    ((¬∃ m ∈ mats, m.color.r = color.r ∧ m.color.g = color.g ∧ m.color.b = color.b) →
      (resolveMaterial meshName color mats).1.extruder = mats.length + 1 ∧
      (resolveMaterial meshName color mats).2 =
        mats ++ [(resolveMaterial meshName color mats).1]) ∧
    ((resolveMaterial meshName color mats).2 = mats ∨
      (resolveMaterial meshName color mats).2 =
        mats ++ [(resolveMaterial meshName color mats).1]) := by
  unfold resolveMaterial
  cases hfind : mats.find? fun m =>
      decide (m.color.r = color.r) && decide (m.color.g = color.g) &&
      decide (m.color.b = color.b) with
  | some m =>
    have hm : m ∈ mats := List.mem_of_find?_eq_some hfind
    have hp := List.find?_some hfind
    simp only [Bool.and_eq_true, decide_eq_true_eq] at hp
    exact ⟨fun _ => ⟨rfl, hm, hp.1.1, hp.1.2, hp.2⟩,
           fun hno => absurd ⟨m, hm, hp.1.1, hp.1.2, hp.2⟩ hno,
           Or.inl rfl⟩
  | none =>
    have hno : ∀ m ∈ mats, ¬(m.color.r = color.r ∧ m.color.g = color.g ∧
        m.color.b = color.b) := by
      intro m hm hc
      have := List.find?_eq_none.mp hfind m hm
      simp only [Bool.and_eq_true, decide_eq_true_eq] at this
      exact this ⟨⟨hc.1, hc.2.1⟩, hc.2.2⟩
    refine ⟨fun hex => ?_, fun _ => ⟨rfl, rfl⟩, Or.inr rfl⟩
    obtain ⟨m, hm, hc⟩ := hex
    exact absurd hc (hno m hm)

/-- Witness for C4: an exact duplicate is reused and a new color appends
with extruder 2 on a one-entry list. -/
theorem claim_c4_witness :
    (resolveMaterial "x" ⟨1, 0, 0⟩ demoMaterials).2 = demoMaterials ∧
    (resolveMaterial "y" ⟨0, 1, 0⟩ demoMaterials).1.extruder = 2 :=
  ⟨((claim_c4 "x" ⟨1, 0, 0⟩ demoMaterials).1 (by decide)).1,
   ((claim_c4 "y" ⟨0, 1, 0⟩ demoMaterials).2.1 (by decide)).1⟩

/-- C6: the centering translation enters the output only at document
emission, added to the three translation entries of each build item
transform; the emission phase hands the component table, material list and
build-item list through unchanged, and the resources section is built from
the components alone, with no access to the shift. -/
theorem claim_c6 (st : ExportState) (items : List BuildItem) (shift : Vec3)
    (cfg : PrintConfig) (date : String) :
    (emitPhase st items shift cfg date).2 = (st, items) ∧
    createMainModelXML st.components items shift cfg date =
      mainModelTemplate (metadataSection cfg date) (resourcesSection st.components)
        (buildSection items shift) ∧
    buildSection items shift = String.intercalate "\n" (items.map (itemXML shift)) ∧
    (∀ item : BuildItem,
      itemXML shift item =
        "<item objectid=\"" ++ toString item.objectId ++ "\" transform=\"" ++
        transformAttr item.transformMatrix (item.transformMatrix.get 12 + shift.x)
          (item.transformMatrix.get 13 + shift.y)
          (item.transformMatrix.get 14 + shift.z) ++ "\" printable=\"1\" />") :=
  ⟨rfl, rfl, rfl, fun _ => rfl⟩

/-- C7: the serialized project settings always carry at least two filament
colors (white-padded below two), and every per-extruder filament array has
exactly one slot per color. -/
theorem claim_c7 (mats : List MaterialInfo) (cfg : PrintConfig) :
    2 ≤ (createProjectSettingsConfig mats cfg).filament_colour.length ∧
    (createProjectSettingsConfig mats cfg).filament_colour = paddedColors mats ∧
    (2 ≤ mats.length →
      (createProjectSettingsConfig mats cfg).filament_colour =
        mats.map fun m => "#" ++ getHexString m.color) ∧
    (createProjectSettingsConfig mats cfg).filament_settings_id.length =
      (createProjectSettingsConfig mats cfg).filament_colour.length ∧
    (createProjectSettingsConfig mats cfg).filament_diameter.length =
      (createProjectSettingsConfig mats cfg).filament_colour.length ∧
    (createProjectSettingsConfig mats cfg).filament_is_support.length =
      (createProjectSettingsConfig mats cfg).filament_colour.length := by
  refine ⟨?_, rfl, ?_, by simp [createProjectSettingsConfig], by
    simp [createProjectSettingsConfig], by simp [createProjectSettingsConfig]⟩
  · show 2 ≤ (paddedColors mats).length
    unfold paddedColors
    cases mats with
    | nil => simp
    | cons a tl =>
      cases tl with
      | nil => simp
      | cons b tl2 => simp
  · intro hlen
    show paddedColors mats = _
    unfold paddedColors
    cases mats with
    | nil => simp at hlen
    | cons a tl =>
      cases tl with
      | nil => simp at hlen
      | cons b tl2 => simp

/-- Witness for C7 with two distinct materials: the color list is exactly
the two hex strings. -/
theorem claim_c7_witness :
    (createProjectSettingsConfig demoMaterials2 defaultPrintConfig).filament_colour =
      demoMaterials2.map (fun m => "#" ++ getHexString m.color) ∧
    2 ≤ (createProjectSettingsConfig demoMaterials2 defaultPrintConfig).filament_colour.length :=
  ⟨(claim_c7 demoMaterials2 defaultPrintConfig).2.2.1 (by decide),
   (claim_c7 demoMaterials2 defaultPrintConfig).1⟩

/-- C8: an unrecognized node kind composes to nothing with the state
untouched; a group-like node whose children contributed no sub-components
does the same; and the export of any root nevertheless completes with the
full five-entry package. -/
theorem claim_c8 (world : Matrix4) (st : ExportState) (n : SceneNode)
    (root : SceneNode) (cfg : PrintConfig) (date : String) :
    (n.kind = NodeKind.other → processNode world st n = (none, st)) ∧
    ((n.kind = NodeKind.group ∨ n.kind = NodeKind.object3d ∨ n.kind = NodeKind.scene) →
      (processChildren world st n.children).1 = [] →
      processNode world st n = (none, st)) ∧
    (exportTo3MF root cfg date).length = 5 := by
  refine ⟨?_, ?_, rfl⟩
  · intro hk
    cases n with
    | mk kind nm mtx geo mmat children =>
      simp only [SceneNode.kind] at hk
      subst hk
      simp [processNode]
  · intro hg hnil
    cases n with
    | mk kind nm mtx geo mmat children =>
      simp only [SceneNode.kind] at hg
      simp only [SceneNode.children] at hnil
      have hk : kind ≠ NodeKind.mesh := by
        rcases hg with h | h | h <;> subst h <;> simp
      have hst := processChildren_nil world st children hnil
      simp only [processNode, hk, if_false, hg, if_true, hnil, hst]
      simp [hnil, hst]

/-- Witness for C8: the unrecognized demonstration node and the empty
demonstration group both vanish from an empty state, and the package of
the unrecognized root still has five entries. -/
theorem claim_c8_witness :
    processNode Matrix4.identity ⟨[], []⟩ demoOther = (none, ⟨[], []⟩) ∧
    processNode Matrix4.identity ⟨[], []⟩ demoEmptyGroup = (none, ⟨[], []⟩) ∧
    (exportTo3MF demoOther defaultPrintConfig "2026-01-01T00:00:00.000Z").length = 5 :=
  ⟨(claim_c8 Matrix4.identity ⟨[], []⟩ demoOther demoOther defaultPrintConfig "").1 rfl,
   (claim_c8 Matrix4.identity ⟨[], []⟩ demoEmptyGroup demoOther defaultPrintConfig "").2.1
     (Or.inl rfl) rfl,
   (claim_c8 Matrix4.identity ⟨[], []⟩ demoOther demoOther defaultPrintConfig
     "2026-01-01T00:00:00.000Z").2.2⟩

/-- C9: the package entries are written in the fixed order with the
content-types descriptor always last and the relationships descriptor
first, so the content-types descriptor is never the first entry. -/
theorem claim_c9 (root : SceneNode) (cfg : PrintConfig) (date : String) :
    (exportTo3MF root cfg date).map Prod.fst =
      ["_rels/.rels", "3D/3dmodel.model", "Metadata/model_settings.config",
       "Metadata/project_settings.config", "[Content_Types].xml"] ∧
    ((exportTo3MF root cfg date).map Prod.fst).getLast? = some "[Content_Types].xml" ∧
    ((exportTo3MF root cfg date).map Prod.fst).head? = some "_rels/.rels" :=
  ⟨rfl, rfl, rfl⟩

/-- C2: a root group with exactly two mesh children exports as mesh
components 1 and 2 plus assembly component 3 referencing exactly 1 and 2,
and a single build item pointing at 3. -/
theorem claim_c2 (root m1 m2 : SceneNode)
    (hroot : root.kind = NodeKind.group) (hch : root.children = [m1, m2])
    (h1 : m1.kind = NodeKind.mesh) (h2 : m2.kind = NodeKind.mesh) :
    (composeScene root).state.components.map ComponentInfo.id = [1, 2, 3] ∧
    (composeScene root).state.components.map ComponentInfo.type =
      [CompType.mesh, CompType.mesh, CompType.assembly] ∧
    (composeScene root).state.components.map
        (fun c => c.subComponents.map SubComponent.objectId) = [[], [], [1, 2]] ∧
    (composeScene root).buildItems.map BuildItem.objectId = [3] := by
  cases root with
  | mk kind nm mtx geo mmat children =>
    simp only [SceneNode.kind] at hroot
    simp only [SceneNode.children] at hch
    subst hroot
    subst hch
    cases m1 with
    | mk k1 n1 x1 g1 mm1 c1 =>
      simp only [SceneNode.kind] at h1
      subst h1
      cases m2 with
      | mk k2 n2 x2 g2 mm2 c2 =>
        simp only [SceneNode.kind] at h2
        subst h2
        simp [composeScene, SceneNode.kind, SceneNode.matrix, composeStep,
          processNode, processChildren, processMesh_eq, meshComp, assemblyComp]

/-- Witness for C2 at the concrete demonstration group. -/
theorem claim_c2_witness :
    (composeScene demoGroup).state.components.map ComponentInfo.id = [1, 2, 3] ∧
    (composeScene demoGroup).state.components.map ComponentInfo.type =
      [CompType.mesh, CompType.mesh, CompType.assembly] ∧
    (composeScene demoGroup).state.components.map
        (fun c => c.subComponents.map SubComponent.objectId) = [[], [], [1, 2]] ∧
    (composeScene demoGroup).buildItems.map BuildItem.objectId = [3] :=
  claim_c2 demoGroup demoMesh1 demoMesh2 rfl rfl rfl rfl

/-- C3: the mesh component of a node is independent of the node transform
(vertices are stored in local object space), its stored vertices are
pairwise distinct raw position-buffer reads, each triangle resolves corner
by corner to the stored coordinates, and equal coordinates always resolve
to one index. -/
theorem claim_c3 (kind : NodeKind) (nm : String) (mtx mtx' : Matrix4) (geo : Geometry)
    (mmat : Option MeshMaterial) (ch ch' : List SceneNode) (st : ExportState) :
    processMesh (SceneNode.mk kind nm mtx geo mmat ch) st =
      processMesh (SceneNode.mk kind nm mtx' geo mmat ch') st ∧
    (processTriangles geo).1.Nodup ∧
    List.Forall₂ (triMatches geo (processTriangles geo).1) (triangleCornerIndices geo)
      (processTriangles geo).2 ∧
    (∀ v ∈ (processTriangles geo).1, fromCorners geo (triangleCornerIndices geo) v) ∧
    (∀ i j : Nat, ∀ v : Vec3, (processTriangles geo).1[i]? = some v →
      (processTriangles geo).1[j]? = some v → i = j) := by
  obtain ⟨hnodup, hforall, hfrom⟩ := processTriangles_spec geo
  refine ⟨rfl, hnodup, hforall, hfrom, ?_⟩
  intro i j v hi hj
  obtain ⟨hilt, hig⟩ := List.getElem?_eq_some.mp hi
  obtain ⟨hjlt, hjg⟩ := List.getElem?_eq_some.mp hj
  exact (List.Nodup.getElem_inj_iff hnodup).mp (hig.trans hjg.symm)

/-- Witness for C3 on geometry with a duplicated coordinate: position 0
and position 2 hold the same point and the second triangle corner slot
reuses stored index 0;  the index-injectivity conjunct is applied at the
stored vertex 0. -/
theorem claim_c3_witness :
    (processTriangles demoGeometryDup).2 = [⟨0, 1, 0⟩] ∧
    (processTriangles demoGeometryDup).1.Nodup ∧
    (0 : Nat) = 0 :=
  ⟨by decide,
   (claim_c3 NodeKind.mesh "m" Matrix4.identity Matrix4.identity demoGeometryDup
     none [] [] ⟨[], []⟩).2.1,
   (claim_c3 NodeKind.mesh "m" Matrix4.identity Matrix4.identity demoGeometryDup
     none [] [] ⟨[], []⟩).2.2.2.2 0 0 ⟨0, 0, 0⟩ (by decide) (by decide)⟩

end Bekuto3d
